import Mathlib

/-!
Verification of the geo-area-calculator core: the walk-path state machine
(`startTracking` / `stopTracking`), the unit-conversion tables, the CSV
export of the recorded path, and the polygon-area calculator.

Modelling conventions:
* JavaScript numbers on the UI side (coordinates, conversion factors,
  accuracies) are modelled as rationals `ℚ`; the area calculator works
  over `ℝ` because its geodetic projection involves `π` and `cos`.
* The React component's `useState` hooks are gathered into one record,
  `AppState`; each handler becomes a function `AppState → AppState`.
* JavaScript strings are modelled as `List Char` where their contents are
  reasoned about (the CSV export), and as `String` elsewhere.
-/

namespace GeoArea

/-- A recorded GPS fix, from `types.ts`: `{ lat: number; lng: number }`. -/
structure GeoPoint where
  lat : ℚ
  lng : ℚ
deriving DecidableEq

/-- The closed set of area units, from `types.ts`.  The `KANAL` and `MARLA`
members are indexed by the `Record<AreaUnit, ·>` literals of `constants.ts`
(`UNIT_CONVERSIONS[AreaUnit.KANAL]` etc.); a `Record` literal over an enum is
exhaustive in TypeScript, so the enum carries exactly these six members. -/
inductive AreaUnit where
  | SQ_METERS
  | SQ_FEET
  | ACRES
  | HECTARES
  | KANAL
  | MARLA
deriving DecidableEq

/-- `constants.ts`: conversion factors from square meters to each unit,
kept as the key-value pairs of the `Record` literal, in source order. -/
def UNIT_CONVERSIONS : List (AreaUnit × ℚ) :=
  [(.SQ_METERS, 1),
   (.SQ_FEET, 10.7639),
   (.ACRES, 0.000247105),
   (.HECTARES, 0.0001),
   (.KANAL, 0.00197684),
   (.MARLA, 0.0395369)]

/-- `constants.ts`: display label of each unit, as the key-value pairs of
the `Record` literal, in source order. -/
def UNIT_LABELS : List (AreaUnit × String) :=
  [(.SQ_METERS, "Square Meters"),
   (.SQ_FEET, "Square Feet"),
   (.ACRES, "Acres"),
   (.HECTARES, "Hectares"),
   (.KANAL, "Kanal"),
   (.MARLA, "Marla")]

/-- `UNIT_CONVERSIONS[u]`: the factor the record associates to `u`. -/
def unitFactor (u : AreaUnit) : ℚ :=
  (UNIT_CONVERSIONS.lookup u).getD 0

/-- `UNIT_LABELS[u]`: the label the record associates to `u`. -/
def unitLabel (u : AreaUnit) : String :=
  (UNIT_LABELS.lookup u).getD ""

/-- The component state of `App`: one field per `useState` hook.  `watchId`
is the handle returned by `watchPosition`, modelled as a natural number. -/
structure AppState where
  isTracking : Bool
  path : List GeoPoint
  area : Option ℝ
  selectedUnit : AreaUnit
  error : Option String
  watchId : Option Nat
  isGeoSupported : Bool
  currentAccuracy : Option ℚ

/-- The `setError` message of `stopTracking`'s short-path branch. -/
def notEnoughPointsMessage : String :=
  "Not enough points to form a shape. Please record at least 3 points by walking the perimeter."

/-- `startTracking`: returns unchanged when geolocation is unsupported;
otherwise clears error, path, area and accuracy, marks tracking active and
stores the fresh watch handle `id` returned by `watchPosition`. -/
def startTracking (id : Nat) (s : AppState) : AppState :=
  if !s.isGeoSupported then s
  else
    { s with
      error := none
      path := []
      area := none
      currentAccuracy := none
      isTracking := true
      watchId := some id }

/-- Modelled from the spec: the repository's `services/areaCalculator` file
is not among the sources, so the calculator follows the spec's mandated
shape — project each point to a local tangent plane by the equirectangular
approximation (Earth radius times the radian coordinate, longitude scaled
by the cosine of the path's mean latitude), then take half the absolute
value of the planar shoelace sum over the vertices, the last vertex paired
back with the first.  Degrees to radians. -/
noncomputable def toRadians (d : ℚ) : ℝ :=
  (d : ℝ) * Real.pi / 180

/-- Documented Earth-radius constant for the local projection, in meters. -/
def EARTH_RADIUS_M : ℝ := 6371000

/-- Mean latitude of a path, in degrees (junk value `0/0` on `[]`,
which the guarded callers never pass). -/
def meanLat (path : List GeoPoint) : ℚ :=
  (path.map GeoPoint.lat).sum / path.length

/-- Equirectangular projection of one point onto the local tangent plane:
`latScale` is the cosine of the path's mean latitude. -/
noncomputable def projectPoint (latScale : ℝ) (p : GeoPoint) : ℝ × ℝ :=
  (EARTH_RADIUS_M * toRadians p.lng * latScale, EARTH_RADIUS_M * toRadians p.lat)

/-- The signed planar shoelace sum over a closed vertex cycle: each vertex
is paired with its cyclic successor (`rotate 1` connects the last vertex
back to the first). -/
def shoelaceSum (pts : List (ℝ × ℝ)) : ℝ :=
  ((pts.zip (pts.rotate 1)).map fun q => q.1.1 * q.2.2 - q.2.1 * q.1.2).sum

/-- Modelled from the spec: `calculatePolygonArea` of
`services/areaCalculator` (absent from the sources) — half the absolute
shoelace sum of the equirectangular projections, in square meters. -/
noncomputable def calculatePolygonArea (path : List GeoPoint) : ℝ :=
  |shoelaceSum (path.map (projectPoint (Real.cos (toRadians (meanLat path)))))| / 2

/-- `stopTracking`, parametrised by the area calculator it calls so that
the call itself is observable: clears the watch handle, stops tracking,
clears the accuracy; then, with more than 2 recorded points, invokes the
calculator (flag `true`) and stores the result; otherwise (flag `false`)
sets the area to `null` and, when the path is non-empty, sets the
not-enough-points error. -/
def stopTrackingRun (calcArea : List GeoPoint → ℝ) (s : AppState) : AppState × Bool :=
  let s1 : AppState := { s with watchId := none, isTracking := false, currentAccuracy := none }
  if s1.path.length > 2 then
    ({ s1 with area := some (calcArea s1.path) }, true)
  else
    let s2 : AppState := { s1 with area := none }
    if s2.path.length > 0 then
      ({ s2 with error := some notEnoughPointsMessage }, false)
    else
      (s2, false)

/-- `stopTracking` as the component runs it, calling `calculatePolygonArea`. -/
noncomputable def stopTracking (s : AppState) : AppState :=
  (stopTrackingRun calculatePolygonArea s).1

/-- The `convertedArea` memo: `0` while there is no result, otherwise the
area in square meters times the selected unit's factor — a single exact
multiplication, no rounding. -/
noncomputable def convertedArea (s : AppState) : ℝ :=
  match s.area with
  | none => 0
  | some a => a * ((unitFactor s.selectedUnit : ℚ) : ℝ)

/-- One CSV data row of `exportToCSV`: the template literal
`p.lat + "," + p.lng`, with the JavaScript number-to-string conversion
abstracted as `render` (JS renders the shortest decimal that round-trips,
so `render` is lossless on the recorded values). -/
def csvRow (render : ℚ → List Char) (p : GeoPoint) : List Char :=
  render p.lat ++ ',' :: render p.lng

/-- `exportToCSV`: returns immediately (no file, `none`) on an empty path;
otherwise the produced file content is the header line `Latitude,Longitude`
followed by one row per point, rows joined by a newline. -/
def exportToCSV (render : ℚ → List Char) (path : List GeoPoint) : Option (List Char) :=
  if path.length = 0 then none
  else some ("Latitude,Longitude\n".data ++ List.intercalate ['\n'] (path.map (csvRow render)))

/-- Reads one CSV data row back: exactly two comma-separated fields. -/
def parseRow (row : List Char) : Option (List Char × List Char) :=
  match row.splitOn ',' with
  | [a, b] => some (a, b)
  | _ => none

/-- Reads an exported file back: the first line must be the exact header
`Latitude,Longitude`, and every following line must parse as a
latitude-longitude row; yields the rows in file order. -/
def parseCSV (content : List Char) : Option (List (List Char × List Char)) :=
  match content.splitOn '\n' with
  | [] => none
  | header :: rows =>
    if header = "Latitude,Longitude".data then rows.mapM parseRow else none

/-- A state whose walk recorded no point at all, tracking just stopped. -/
def emptyPathState : AppState :=
  { isTracking := true, path := [], area := none, selectedUnit := .SQ_METERS,
    error := none, watchId := some 7, isGeoSupported := true, currentAccuracy := none }

/-- A state whose walk recorded exactly two points. -/
def twoPointState : AppState :=
  { isTracking := true, path := [⟨31.5, 74.3⟩, ⟨31.6, 74.4⟩], area := none,
    selectedUnit := .SQ_METERS, error := none, watchId := some 3,
    isGeoSupported := true, currentAccuracy := some 5 }

/-- A state holding a computed 5 square-meter result shown in hectares. -/
def hectares5State : AppState :=
  { isTracking := false, path := [], area := some 5, selectedUnit := .HECTARES,
    error := none, watchId := none, isGeoSupported := true, currentAccuracy := none }

/-- A state holding a computed 1000 square-meter result shown in acres. -/
def acres1000State : AppState :=
  { isTracking := false, path := [], area := some 1000, selectedUnit := .ACRES,
    error := none, watchId := none, isGeoSupported := true, currentAccuracy := none }

/-- An idle state carrying a previous walk's result in marla, about to start
a new walk. -/
def idleMarlaState : AppState :=
  { isTracking := false, path := [⟨31.5, 74.3⟩], area := some 120,
    selectedUnit := .MARLA, error := none, watchId := none,
    isGeoSupported := true, currentAccuracy := none }

/-- An idle state carrying a previous walk's result in kanal, about to start
a new walk. -/
def idleKanalState : AppState :=
  { isTracking := false, path := [⟨31.5, 74.3⟩, ⟨31.6, 74.4⟩], area := some 99,
    selectedUnit := .KANAL, error := some "old error", watchId := none,
    isGeoSupported := true, currentAccuracy := some 3 }

/-- A concrete one-digit number renderer, standing in for the JavaScript
number-to-string conversion in concrete CSV runs. -/
def digitRender : ℚ → List Char := fun _ => ['0']

/-- A concrete one-point path for a concrete CSV run. -/
def onePointPath : List GeoPoint := [⟨31.5, 74.3⟩]

/-! ## Theorems -/

/-- Intercalating a single separator in front of a non-empty list of pieces
prepends the head piece and the separator. -/
theorem intercalate_cons_of_ne_nil {α : Type} (x : α) (a : List α) (ls : List (List α))
    (h : ls ≠ []) :
    List.intercalate [x] (a :: ls) = a ++ x :: List.intercalate [x] ls := by
  cases ls with
  | nil => exact absurd rfl h
  | cons b t =>
    simp [List.intercalate, List.intersperse_cons_cons]

/-- Splitting a CSV row at the comma recovers its two rendered fields,
when neither rendered field contains a comma. -/
theorem csvRow_splitOn (render : ℚ → List Char) (p : GeoPoint)
    (hlat : ',' ∉ render p.lat) (hlng : ',' ∉ render p.lng) :
    (csvRow render p).splitOn ',' = [render p.lat, render p.lng] := by
  have he : csvRow render p = List.intercalate [','] [render p.lat, render p.lng] := by
    rw [intercalate_cons_of_ne_nil ',' _ _ (by simp)]
    simp [csvRow, List.intercalate]
  rw [he]
  exact List.splitOn_intercalate _ ',' (by simp [hlat, hlng]) (by simp)

/-- Parsing each exported row recovers each point's rendered coordinates,
in path order, when no rendered value contains a separator. -/
theorem mapM_parseRow (render : ℚ → List Char) (path : List GeoPoint)
    (hfree : ∀ p ∈ path, (',' ∉ render p.lat ∧ '\n' ∉ render p.lat) ∧
                          (',' ∉ render p.lng ∧ '\n' ∉ render p.lng)) :
    (path.map (csvRow render)).mapM parseRow
      = some (path.map fun p => (render p.lat, render p.lng)) := by
  induction path with
  | nil => rfl
  | cons p t ih =>
    have hp := hfree p (by simp)
    have hrow : parseRow (csvRow render p) = some (render p.lat, render p.lng) := by
      simp [parseRow, csvRow_splitOn render p hp.1.1 hp.2.1]
    simp only [List.map_cons, List.mapM_cons, hrow,
      ih (fun q hq => hfree q (by simp [hq])), Option.bind_eq_bind, Option.bind_some]
    rfl

/-- Claim C1 (counterexample): stopping tracking on an empty recorded path —
fewer than 3 points — leaves the error field untouched (`none`): no
"insufficient points" condition is reported to the user, contrary to the
claim's universal statement over all paths with fewer than 3 points. -/
theorem stopTracking_emptyPath_reportsNothing :
    emptyPathState.path.length < 3 ∧
    (stopTracking emptyPathState).area = none ∧
    (stopTracking emptyPathState).error = none ∧
    (stopTracking emptyPathState).error ≠ some notEnoughPointsMessage := by
  refine ⟨by decide, rfl, rfl, by decide⟩

/-- Claim C1 (amended): for every finalized path with fewer than 3 points,
`stopTracking` never invokes the area calculator (the invocation flag of
`stopTrackingRun` is `false`, whatever calculator is plugged in) and leaves
the area result `none`; the "insufficient points" condition is reported
exactly when the path is additionally non-empty (1 or 2 points). -/
theorem stopTracking_insufficientPoints (calcArea : List GeoPoint → ℝ) (s : AppState)
    (h : s.path.length < 3) :
    (stopTrackingRun calcArea s).2 = false ∧
    (stopTrackingRun calcArea s).1.area = none ∧
    (0 < s.path.length →
      (stopTrackingRun calcArea s).1.error = some notEnoughPointsMessage) := by
  unfold stopTrackingRun
  have h2 : ¬ s.path.length > 2 := by omega
  by_cases h0 : s.path.length > 0 <;> simp [h2, h0]

/-- Claim C1 (witness): at a concrete two-point walk, stopping does not call
the calculator, stores no area, and reports the "insufficient points" error. -/
theorem stopTracking_insufficientPoints_witness :
    (stopTrackingRun calculatePolygonArea twoPointState).2 = false ∧
    (stopTrackingRun calculatePolygonArea twoPointState).1.area = none ∧
    (0 < twoPointState.path.length →
      (stopTrackingRun calculatePolygonArea twoPointState).1.error
        = some notEnoughPointsMessage) :=
  stopTracking_insufficientPoints calculatePolygonArea twoPointState (by decide)

/-- Claim C2: every member of the six-element `AreaUnit` enumeration has
exactly one conversion-factor entry in `UNIT_CONVERSIONS` and exactly one
label entry in `UNIT_LABELS`, and looking either record up at any unit is
total (never `none`). -/
theorem unitTables_total_unique (u : AreaUnit) :
    (UNIT_CONVERSIONS.map Prod.fst).count u = 1 ∧
    (UNIT_LABELS.map Prod.fst).count u = 1 ∧
    (UNIT_CONVERSIONS.lookup u).isSome = true ∧
    (UNIT_LABELS.lookup u).isSome = true := by
  cases u <;> exact (by decide)

/-- Claim C3: whenever a computed area `x` (in square meters) is present,
the displayed conversion is exactly `x` times the selected unit's factor —
one exact multiplication, no rounding in the conversion itself. -/
theorem convertedArea_exact_product (s : AppState) (x : ℝ) (h : s.area = some x) :
    convertedArea s = x * ((unitFactor s.selectedUnit : ℚ) : ℝ) := by
  simp [convertedArea, h]

/-- Claim C3 (witness): at a concrete state holding 5 square meters shown in
hectares, the displayed value is exactly the product with the factor. -/
theorem convertedArea_exact_product_witness :
    convertedArea hectares5State
      = 5 * ((unitFactor hectares5State.selectedUnit : ℚ) : ℝ) :=
  convertedArea_exact_product hectares5State 5 rfl

/-- Claim C4: on every path of at least 3 points, the polygon-area
calculator — the spec's equirectangular-projection shoelace over the closed
vertex cycle, the last point connected back to the first by `rotate 1` —
returns a non-negative scalar. -/
theorem calculatePolygonArea_nonneg (path : List GeoPoint) (h : 3 ≤ path.length) :
    0 ≤ calculatePolygonArea path := by
  unfold calculatePolygonArea
  positivity

/-- Claim C4 (witness): the calculator is non-negative on a concrete
three-point path. -/
theorem calculatePolygonArea_nonneg_witness :
    0 ≤ calculatePolygonArea [⟨0, 0⟩, ⟨0, 1⟩, ⟨1, 1⟩] :=
  calculatePolygonArea_nonneg [⟨0, 0⟩, ⟨0, 1⟩, ⟨1, 1⟩] (by decide)

/-- Claim C5: on every non-empty path the CSV export produces a file whose
content is exactly the header line `Latitude,Longitude` followed by one row
per point in path insertion order, each row that point's rendered latitude
then longitude; parsing the content back recovers every rendered coordinate
exactly and in order (so the export round-trips point order, and coordinate
precision to the full fidelity of the number renderer — the JavaScript
conversion renders the shortest decimal that round-trips, losing nothing),
provided the rendered numbers contain no separator character, which decimal
number notation never does. -/
theorem exportToCSV_roundTrip (render : ℚ → List Char) (path : List GeoPoint)
    (hne : path ≠ [])
    (hfree : ∀ p ∈ path, (',' ∉ render p.lat ∧ '\n' ∉ render p.lat) ∧
                          (',' ∉ render p.lng ∧ '\n' ∉ render p.lng)) :
    ∃ content, exportToCSV render path = some content ∧
      parseCSV content = some (path.map fun p => (render p.lat, render p.lng)) := by
  have hlen : path.length ≠ 0 := by simpa using fun h => hne (List.length_eq_zero.mp h)
  refine ⟨"Latitude,Longitude\n".data ++ List.intercalate ['\n'] (path.map (csvRow render)),
    by simp [exportToCSV, hlen], ?_⟩
  have hrows : path.map (csvRow render) ≠ [] := by
    simpa using hne
  have hcontent :
      "Latitude,Longitude\n".data ++ List.intercalate ['\n'] (path.map (csvRow render))
        = List.intercalate ['\n'] ("Latitude,Longitude".data :: path.map (csvRow render)) := by
    rw [intercalate_cons_of_ne_nil '\n' _ _ hrows]
    rw [show "Latitude,Longitude\n".data = "Latitude,Longitude".data ++ ['\n'] from by decide]
    rw [List.append_assoc]
    rfl
  rw [hcontent]
  have hx : ∀ l ∈ "Latitude,Longitude".data :: path.map (csvRow render), '\n' ∉ l := by
    intro l hl
    rcases List.mem_cons.mp hl with h | h
    · subst h; decide
    · rcases List.mem_map.mp h with ⟨p, hp, rfl⟩
      have := hfree p hp
      simp [csvRow, this.1.2, this.2.2]
  have hsplit := List.splitOn_intercalate _ '\n' hx (by simp)
  have hmap := mapM_parseRow render path hfree
  unfold parseCSV
  rw [hsplit]
  simpa using hmap

/-- Claim C5 (witness): a concrete one-point export parses back to that
point's rendered coordinates. -/
theorem exportToCSV_roundTrip_witness :
    ∃ content, exportToCSV digitRender onePointPath = some content ∧
      parseCSV content
        = some (onePointPath.map fun p => (digitRender p.lat, digitRender p.lng)) :=
  exportToCSV_roundTrip digitRender onePointPath (by decide) (by decide)

/-- Claim C6: starting a new walk (geolocation being supported, else no walk
starts at all) clears the path to the empty sequence and discards the
previous walk's area result. -/
theorem startTracking_clearsSession (id : Nat) (s : AppState)
    (h : s.isGeoSupported = true) :
    (startTracking id s).path = [] ∧ (startTracking id s).area = none := by
  simp [startTracking, h]

/-- Claim C6 (witness): starting from a concrete idle state holding a
previous result leaves an empty path and no area. -/
theorem startTracking_clearsSession_witness :
    (startTracking 42 idleMarlaState).path = [] ∧
    (startTracking 42 idleMarlaState).area = none :=
  startTracking_clearsSession 42 idleMarlaState rfl

/-- Claim C7: converting a computed area of 1000 square meters to acres with
the table's factor 0.000247105 displays exactly 0.247105. -/
theorem convert_1000_sqm_to_acres : convertedArea acres1000State = 0.247105 := by
  have h : unitFactor AreaUnit.ACRES = 0.000247105 := rfl
  simp [convertedArea, acres1000State, h]
  norm_num

/-- Claim C8: starting a new walk leaves the selected display unit (and the
geolocation-support flag) unchanged; of the component state, exactly path,
area, error, accuracy and tracking status are reset, and the watch handle
receives the new subscription id — so the unit chosen for a previous walk's
result is still selected for the next walk. -/
theorem startTracking_preservesSelectedUnit (id : Nat) (s : AppState)
    (h : s.isGeoSupported = true) :
    (startTracking id s).selectedUnit = s.selectedUnit ∧
    (startTracking id s).isGeoSupported = s.isGeoSupported ∧
    (startTracking id s).watchId = some id ∧
    (startTracking id s).path = [] ∧
    (startTracking id s).area = none ∧
    (startTracking id s).error = none ∧
    (startTracking id s).currentAccuracy = none ∧
    (startTracking id s).isTracking = true := by
  simp [startTracking, h]

/-- Claim C8 (witness): a concrete state with kanal selected keeps kanal
selected across `startTracking`. -/
theorem startTracking_preservesSelectedUnit_witness :
    (startTracking 9 idleKanalState).selectedUnit = idleKanalState.selectedUnit ∧
    (startTracking 9 idleKanalState).isGeoSupported = idleKanalState.isGeoSupported ∧
    (startTracking 9 idleKanalState).watchId = some 9 ∧
    (startTracking 9 idleKanalState).path = [] ∧
    (startTracking 9 idleKanalState).area = none ∧
    (startTracking 9 idleKanalState).error = none ∧
    (startTracking 9 idleKanalState).currentAccuracy = none ∧
    (startTracking 9 idleKanalState).isTracking = true :=
  startTracking_preservesSelectedUnit 9 idleKanalState rfl

/-- Claim C9: stopping tracking with an empty path leaves the error field
exactly as it was (no message is set) and stores no area result; and
whenever `stopTracking` does change the error field, the path length was 1
or 2 at finalize time. -/
theorem stopTracking_emptyPath_noError (s : AppState) :
    (s.path = [] → (stopTracking s).error = s.error ∧ (stopTracking s).area = none) ∧
    ((stopTracking s).error ≠ s.error → s.path.length = 1 ∨ s.path.length = 2) := by
  unfold stopTracking stopTrackingRun
  constructor
  · intro h; simp [h]
  · intro hne
    by_cases h2 : s.path.length > 2
    · simp [h2] at hne
    · by_cases h0 : s.path.length > 0
      · omega
      · simp [h2, h0] at hne

/-- Claim C10: invoking the CSV export with an empty path produces nothing
at all — no file, no header —, whatever number renderer is in use. -/
theorem exportToCSV_empty_none (render : ℚ → List Char) :
    exportToCSV render [] = none := rfl

end GeoArea
